import Mathlib

/-!
Shallow embedding of the invoice verification engine of the
`invoiceServer` repository (files `api/index.js` and `server.js`).

JavaScript strings are modelled as `List Char`; JS numbers that can carry
the `NaN` value are modelled as `Option ℚ` (`none` = `NaN`), following the
design document's requirement that monetary values be treated as exact
decimals rather than binary floats.  Untyped request fields
(`invoiceId`, `amount`) are modelled as tagged unions, and the JS
`try`/`catch` wrapper of the verification functions is modelled with
`Except`: an operation that can throw (such as `null.toString()`) returns
`Except.error`, and the outer catch maps any error to the `false` verdict.
Numeric identifiers are modelled over natural numbers (the only numeric
identifiers the system is exercised with); `parseFloat` is modelled on its
plain decimal fragment (optional sign, digits, optional fraction part,
leading whitespace skipped, `none`/NaN when no digit is consumed).
Pass-through record metadata (`createdAt`, `category`, `currency`, ...)
never enters the verification logic and is omitted from the record model.
-/

/-- Convert a Lean string literal to the `List Char` model of a JS string. -/
def chars (s : String) : List Char := s.toList

/-- ASCII whitespace recognised by `String.prototype.trim` / `parseFloat`. -/
def isJsWhitespace (c : Char) : Bool :=
  c = ' ' || c = '\t' || c = '\n' || c = '\r'

/-- JS `String.prototype.trim`: drop whitespace from both ends. -/
def jsTrim (s : List Char) : List Char :=
  ((s.dropWhile isJsWhitespace).reverse.dropWhile isJsWhitespace).reverse

/-- A raw `invoiceId` request field: string, number, `null` or `undefined`. -/
inductive JsId where
  | str (s : List Char)
  | num (n : Nat)
  | null
  | undef
deriving DecidableEq

/-- A JS number value: `none` models `NaN`, `some q` a finite decimal. -/
abbrev JsNum := Option ℚ

/-- A raw `amount` request field: number, string, `null` or `undefined`. -/
inductive JsAmt where
  | num (x : JsNum)
  | str (s : List Char)
  | null
  | undef

/-- `invoiceId.toString()`: identity on strings, decimal digits for
numbers, but a thrown `TypeError` on `null` and `undefined`. -/
def jsToStringId : JsId → Except String (List Char)
  | JsId.str s => Except.ok s
  | JsId.num n => Except.ok (chars (Nat.repr n))
  | JsId.null => Except.error "TypeError"
  | JsId.undef => Except.error "TypeError"

/-- `normalizeInvoiceId` (api/index.js, lines 28-43).
Guard: `invoiceId === null || invoiceId === undefined || invoiceId === ''`
returns `null` (modelled as `none`); otherwise the value is coerced to a
string with `String(invoiceId)`, trimmed, the exact string `"0"` is kept,
and otherwise all leading zeros are removed with `"0"` restored when
nothing remains (`idStr.replace(/^0+/, '') || '0'`). -/
def normalizeInvoiceId (invoiceId : JsId) : Option (List Char) :=
  match invoiceId with
  | JsId.null => none
  | JsId.undef => none
  | JsId.str s =>
      if s = [] then none
      else
        let idStr := jsTrim s
        if idStr = chars "0" then some (chars "0")
        else
          let stripped := idStr.dropWhile (fun c => c = '0')
          some (if stripped = [] then chars "0" else stripped)
  | JsId.num n =>
      let idStr := jsTrim (chars (Nat.repr n))
      if idStr = chars "0" then some (chars "0")
      else
        let stripped := idStr.dropWhile (fun c => c = '0')
        some (if stripped = [] then chars "0" else stripped)

/-- Decimal digit run → natural number (`parseFloat` helper). -/
def digitsToNat (l : List Char) : Nat :=
  l.foldl (fun a c => 10 * a + (c.toNat - 48)) 0

/-- JS `parseFloat` on its plain decimal fragment: skip leading
whitespace, optional sign, integer digits, optional `.` and fraction
digits; `NaN` (`none`) when no digit is consumed, otherwise the value of
the numeric prefix (trailing garbage ignored, as in JS). -/
def parseFloatChars (s : List Char) : JsNum :=
  let s1 := s.dropWhile isJsWhitespace
  let signAndRest : ℚ × List Char :=
    match s1 with
    | '-' :: r => (-1, r)
    | '+' :: r => (1, r)
    | _ => (1, s1)
  let intPart := signAndRest.2.takeWhile Char.isDigit
  let afterInt := signAndRest.2.dropWhile Char.isDigit
  let fracPart : List Char :=
    match afterInt with
    | '.' :: r => r.takeWhile Char.isDigit
    | _ => []
  if intPart = [] ∧ fracPart = [] then none
  else
    some (signAndRest.1 *
      ((digitsToNat intPart : ℚ) +
        (digitsToNat fracPart : ℚ) / (10 : ℚ) ^ fracPart.length))

/-- JS subtraction on numbers: `NaN` propagates. -/
def jsSub : JsNum → JsNum → JsNum
  | some a, some b => some (a - b)
  | _, _ => none

/-- JS `Math.abs`: `NaN` propagates. -/
def jsAbs : JsNum → JsNum
  | some a => some |a|
  | none => none

/-- JS `>` on numbers: any comparison involving `NaN` is `false`. -/
def jsGt : JsNum → JsNum → Bool
  | some a, some b => decide (b < a)
  | _, _ => false

/-- JS `!==` between two numbers: `NaN !== x` is `true` for every `x`. -/
def jsStrictNe : JsNum → JsNum → Bool
  | some a, some b => decide (a ≠ b)
  | _, _ => true

/-! ### The api/index.js engine (no amount, normalizing) -/

/-- A record of the api/index.js mock invoice database. -/
structure ApiInvoiceRecord where
  supplier : String
  status : List Char

/-- The `mockInvoices` object of api/index.js `verifyInvoiceLogic`
(lines 144-159), keyed by normalized id. -/
def apiMockInvoices (k : List Char) : Option ApiInvoiceRecord :=
  if k = chars "1001" then some ⟨"TechCorp Solutions", chars "pending"⟩
  else if k = chars "1002" then some ⟨"Global Manufacturing Ltd", chars "pending"⟩
  else if k = chars "1003" then some ⟨"Office Supplies Pro", chars "pending"⟩
  else if k = chars "12345" then some ⟨"Test Supplier", chars "pending"⟩
  else if k = chars "99999" then some ⟨"Debug Supplier", chars "pending"⟩
  else if k = chars "100" then some ⟨"Small Invoice", chars "pending"⟩
  else if k = chars "200" then some ⟨"Medium Invoice", chars "pending"⟩
  else if k = chars "300" then some ⟨"Large Invoice", chars "pending"⟩
  else if k = chars "2001" then some ⟨"Supplier A", chars "pending"⟩
  else if k = chars "2002" then some ⟨"Supplier B", chars "pending"⟩
  else if k = chars "5000" then some ⟨"New Supplier", chars "pending"⟩
  else if k = chars "6000" then some ⟨"Another Supplier", chars "pending"⟩
  else if k = chars "7000" then some ⟨"Final Supplier", chars "pending"⟩
  else if k = chars "0" then some ⟨"Zero Invoice", chars "pending"⟩
  else none

/-- `verifyInvoiceLogic` of api/index.js (lines 126-182): normalize, fail
on `null`, look up the normalized id, verdict is bare existence of the
record (no status or amount rule).  Nothing in its body can throw in the
model, so the surrounding `try`/`catch` adds nothing here. -/
def verifyInvoiceLogicApi (invoiceId : JsId) : Bool :=
  match normalizeInvoiceId invoiceId with
  | none => false
  | some normalizedId =>
      match apiMockInvoices normalizedId with
      | none => false
      | some _ => true

/-! ### The server.js engines -/

/-- A record of the server.js mock invoice databases. -/
structure InvoiceRecord where
  amount : ℚ
  status : List Char
  supplier : String

/-- The `mockInvoices` object of the first server.js
`verifyInvoiceLogic` (lines 154-166). -/
def mockInvoicesServer1 (k : List Char) : Option InvoiceRecord :=
  if k = chars "1001" then some ⟨1250.50, chars "pending", "TechCorp Solutions"⟩
  else if k = chars "1002" then some ⟨3750.00, chars "pending", "Global Manufacturing Ltd"⟩
  else if k = chars "1003" then some ⟨890.25, chars "pending", "Office Supplies Pro"⟩
  else if k = chars "12345" then some ⟨5000.00, chars "pending", "Test Supplier"⟩
  else if k = chars "99999" then some ⟨999.99, chars "pending", "Debug Supplier"⟩
  else if k = chars "2001" then some ⟨3200.00, chars "paid", "Paid Supplier A"⟩
  else if k = chars "2002" then some ⟨1800.75, chars "rejected", "Rejected Supplier B"⟩
  else none

/-- The claimed amount as the first server.js engine reads it
(lines 189-196): a string goes through `parseFloat`, a number is used as
is, any other type (`undefined`, `null`) hits the
`Invalid amount type` branch, modelled as `none`. -/
def providedAmountOf : JsAmt → Option JsNum
  | JsAmt.str s => some (parseFloatChars s)
  | JsAmt.num x => some x
  | JsAmt.null => none
  | JsAmt.undef => none

/-- Body of the first server.js `verifyInvoiceLogic` (lines 145-217),
before the `catch`: `invoiceId.toString()` (which throws on
`null`/`undefined`), record lookup, status gate
(`invoice.status !== 'pending'`), then the tolerance rule
`Math.abs(expected - provided) > 0.001 ⇒ false`, else `true`.
`parseFloat(invoice.amount)` on a stored number is the number itself. -/
def verifyServer1Body (invoiceId : JsId) (amount : JsAmt) : Except String Bool :=
  match jsToStringId invoiceId with
  | Except.error e => Except.error e
  | Except.ok invoiceIdStr =>
      match mockInvoicesServer1 invoiceIdStr with
      | none => Except.ok false
      | some invoice =>
          if invoice.status ≠ chars "pending" then Except.ok false
          else
            match providedAmountOf amount with
            | none => Except.ok false
            | some providedAmount =>
                let amountDifference := jsAbs (jsSub (some invoice.amount) providedAmount)
                if jsGt amountDifference (some (1/1000 : ℚ)) then Except.ok false
                else Except.ok true

/-- The first server.js `verifyInvoiceLogic` with its `try`/`catch`:
any thrown error resolves to the `false` verdict. -/
def verifyInvoiceLogicServer1 (invoiceId : JsId) (amount : JsAmt) : Bool :=
  match verifyServer1Body invoiceId amount with
  | Except.ok b => b
  | Except.error _ => false

/-- The `mockInvoices` object of the second server.js
`verifyInvoiceLogic` (lines 452-496). -/
def mockInvoicesServer2 (k : List Char) : Option InvoiceRecord :=
  if k = chars "1001" then some ⟨1250.50, chars "pending", "TechCorp Solutions"⟩
  else if k = chars "1002" then some ⟨3750.00, chars "pending", "Global Manufacturing Ltd"⟩
  else if k = chars "1003" then some ⟨890.25, chars "pending", "Office Supplies Pro"⟩
  else if k = chars "1004" then some ⟨15000.00, chars "pending", "Construction Materials Inc"⟩
  else if k = chars "1005" then some ⟨2200.75, chars "pending", "Marketing Agency Plus"⟩
  else if k = chars "1006" then some ⟨450.00, chars "pending", "Local Catering Services"⟩
  else if k = chars "1007" then some ⟨8500.00, chars "pending", "IT Consulting Group"⟩
  else if k = chars "1008" then some ⟨1875.30, chars "pending", "Energy Solutions Corp"⟩
  else if k = chars "1009" then some ⟨12000.00, chars "pending", "Heavy Machinery Rentals"⟩
  else if k = chars "1010" then some ⟨675.50, chars "pending", "Legal Services LLC"⟩
  else if k = chars "12345" then some ⟨5000.00, chars "pending", "Test Supplier"⟩
  else if k = chars "99999" then some ⟨999.99, chars "pending", "Debug Supplier"⟩
  else if k = chars "55555" then some ⟨7500.25, chars "pending", "Demo Company"⟩
  else if k = chars "2001" then some ⟨3200.00, chars "paid", "Paid Supplier A"⟩
  else if k = chars "2002" then some ⟨1800.75, chars "rejected", "Rejected Supplier B"⟩
  else if k = chars "2003" then some ⟨4500.00, chars "paid", "Quick Pay Corp"⟩
  else if k = chars "2004" then some ⟨950.25, chars "cancelled", "Cancelled Order Ltd"⟩
  else if k = chars "2005" then some ⟨6750.00, chars "disputed", "Dispute Corp"⟩
  else if k = chars "3001" then some ⟨50000.00, chars "pending", "Enterprise Solutions Mega Corp"⟩
  else if k = chars "3002" then some ⟨75000.50, chars "pending", "Industrial Equipment Specialists"⟩
  else if k = chars "3003" then some ⟨125000.00, chars "pending", "Commercial Real Estate Partners"⟩
  else if k = chars "4001" then some ⟨25.99, chars "pending", "Coffee Shop Corner"⟩
  else if k = chars "4002" then some ⟨89.50, chars "pending", "Stationery World"⟩
  else if k = chars "4003" then some ⟨15.75, chars "pending", "Quick Print Services"⟩
  else if k = chars "5001" then some ⟨3500.00, chars "pending", "European Tech Solutions GmbH"⟩
  else if k = chars "5002" then some ⟨8200.00, chars "pending", "Asian Manufacturing Co Ltd"⟩
  else if k = chars "5003" then some ⟨1250.00, chars "pending", "Canadian Consulting Inc"⟩
  else if k = chars "6001" then some ⟨0.01, chars "pending", "Minimal Amount Test"⟩
  else if k = chars "6002" then some ⟨999999.99, chars "pending", "Maximum Amount Test"⟩
  else if k = chars "6003" then some ⟨1000.001, chars "pending", "Precision Test Corp"⟩
  else none

/-- `parseFloat(amount)` as the second server.js engine applies it to the
raw request field: numbers parse to themselves, strings through
`parseFloat`, and `parseFloat(undefined)` / `parseFloat(null)` are `NaN`. -/
def parseFloatAmt : JsAmt → JsNum
  | JsAmt.num x => x
  | JsAmt.str s => parseFloatChars s
  | JsAmt.null => none
  | JsAmt.undef => none

/-- Body of the second server.js `verifyInvoiceLogic` (lines 446-516),
before the `catch`: `invoiceId.toString()`, record lookup, status gate,
then the exact-match rule
`parseFloat(invoice.amount) !== parseFloat(amount) ⇒ false`, else `true`. -/
def verifyServer2Body (invoiceId : JsId) (amount : JsAmt) : Except String Bool :=
  match jsToStringId invoiceId with
  | Except.error e => Except.error e
  | Except.ok invoiceIdStr =>
      match mockInvoicesServer2 invoiceIdStr with
      | none => Except.ok false
      | some invoice =>
          if invoice.status ≠ chars "pending" then Except.ok false
          else if jsStrictNe (some invoice.amount) (parseFloatAmt amount) then Except.ok false
          else Except.ok true

/-- The second server.js `verifyInvoiceLogic` with its `try`/`catch`. -/
def verifyInvoiceLogicServer2 (invoiceId : JsId) (amount : JsAmt) : Bool :=
  match verifyServer2Body invoiceId amount with
  | Except.ok b => b
  | Except.error _ => false

/-! ### The bulk verification endpoint (server.js, lines 618-675) -/

/-- One element of the `invoices` array of a bulk request. -/
structure BulkItem where
  invoiceId : JsId
  amount : JsAmt

/-- One element of the `results` array pushed by the bulk loop
(`timestamp` omitted: it never enters the logic). -/
structure BulkVerificationResult where
  invoiceId : JsId
  amount : JsAmt
  isValid : Bool

/-- The result of verifying one request on its own: the per-item call
`verifyInvoiceLogic(invoiceId, amount)` packaged as the endpoint does. -/
def verifySingle (it : BulkItem) : BulkVerificationResult :=
  { invoiceId := it.invoiceId, amount := it.amount,
    isValid := verifyInvoiceLogicServer2 it.invoiceId it.amount }

/-- The `for (const invoice of invoices)` loop of the bulk endpoint:
each item is verified with `verifyInvoiceLogic` and its result pushed in
order. -/
def bulkResults : List BulkItem → List BulkVerificationResult
  | [] => []
  | it :: rest =>
      { invoiceId := it.invoiceId, amount := it.amount,
        isValid := verifyInvoiceLogicServer2 it.invoiceId it.amount } :: bulkResults rest

/-- The reported `validCount`: `results.filter(r => r.isValid).length`. -/
def bulkValidCount (items : List BulkItem) : Nat :=
  ((bulkResults items).filter (fun r => r.isValid)).length

/-! ### Helper lemmas -/

/-- The head surviving `List.dropWhile` does not satisfy the predicate. -/
lemma dropWhile_head_false (p : Char → Bool) :
    ∀ (l : List Char) {a : Char} {t : List Char}, l.dropWhile p = a :: t → p a = false := by
  intro l
  induction l with
  | nil => intro a t h; simp [List.dropWhile] at h
  | cons x xs ih =>
      intro a t h
      by_cases hx : p x
      · rw [List.dropWhile_cons_of_pos hx] at h
        exact ih h
      · rw [List.dropWhile_cons_of_neg hx] at h
        cases h
        simpa using hx

/-- Every successful normalization result is non-empty and starts with
`'0'` only when it is exactly the canonical `"0"`. -/
lemma normalizeInvoiceId_canonical (raw : JsId) (c : List Char)
    (h : normalizeInvoiceId raw = some c) :
    c ≠ [] ∧ (c.head? = some '0' → c = chars "0") := by
  have core : ∀ s : List Char,
      (if jsTrim s = chars "0" then some (chars "0")
       else
         some (if (jsTrim s).dropWhile (fun c => c = '0') = [] then chars "0"
               else (jsTrim s).dropWhile (fun c => c = '0'))) = some c →
      c ≠ [] ∧ (c.head? = some '0' → c = chars "0") := by
    intro s hs
    by_cases h0 : jsTrim s = chars "0"
    · rw [if_pos h0] at hs
      cases hs
      exact ⟨by decide, fun _ => rfl⟩
    · rw [if_neg h0] at hs
      by_cases hnil : (jsTrim s).dropWhile (fun c => c = '0') = []
      · rw [if_pos hnil] at hs
        cases hs
        exact ⟨by decide, fun _ => rfl⟩
      · rw [if_neg hnil] at hs
        cases hs
        refine ⟨hnil, fun hhead => ?_⟩
        obtain ⟨a, t, hat⟩ := List.exists_cons_of_ne_nil hnil
        have hfalse := dropWhile_head_false (fun c => c = '0') (jsTrim s) hat
        rw [hat] at hhead
        simp only [List.head?] at hhead
        cases hhead
        simp at hfalse
  cases raw with
  | null => cases h
  | undef => cases h
  | num n => exact core _ h
  | str s =>
      by_cases hnil : s = []
      · rw [hnil] at h; cases h
      · simp only [normalizeInvoiceId, if_neg hnil] at h
        exact core _ h

/-! ### Claim theorems -/

/-- Claim C10 (confirmed): every successful `normalizeInvoiceId` result is
a non-empty string stripped of leading zeros — its first character is
`'0'` only when the whole result is the canonical `"0"`. -/
theorem canonical_id_invariant (raw : JsId) (c : List Char)
    (h : normalizeInvoiceId raw = some c) :
    c ≠ [] ∧ (c.head? = some '0' → c = chars "0") :=
  normalizeInvoiceId_canonical raw c h

/-- Witness for C10 at the input `"007"`, whose canonical form is `"7"`. -/
theorem canonical_id_invariant_witness :
    chars "7" ≠ [] ∧ ((chars "7").head? = some '0' → chars "7" = chars "0") :=
  canonical_id_invariant (JsId.str (chars "007")) (chars "7") (by decide)

/-- Claim C4, counterexample: `normalizeInvoiceId` is not idempotent.  The
input `"0 1"` (zero, space, one) normalizes to `" 1"`, whose own
normalization trims the exposed space and yields `"1" ≠ " 1"`. -/
theorem normalize_not_idempotent_on_zero_space_one :
    normalizeInvoiceId (JsId.str (chars "0 1")) = some (chars " 1") ∧
    normalizeInvoiceId (JsId.str (chars " 1")) = some (chars "1") ∧
    chars " 1" ≠ chars "1" := by
  refine ⟨by decide, by decide, by decide⟩

/-- Claim C4 (corrected): `normalizeInvoiceId` is idempotent on every
input whose canonical result is itself trimmed — stripping leading zeros
can expose interior whitespace (`"0 1" ↦ " 1"`), and only then does a
second normalization differ. -/
theorem normalize_idempotent_on_trimmed_canonical (x : JsId) (c : List Char)
    (h : normalizeInvoiceId x = some c) (ht : jsTrim c = c) :
    normalizeInvoiceId (JsId.str c) = some c := by
  obtain ⟨hne, hzero⟩ := normalizeInvoiceId_canonical x c h
  simp only [normalizeInvoiceId, if_neg hne, ht]
  by_cases h0 : c = chars "0"
  · rw [if_pos h0, h0]
  · rw [if_neg h0]
    obtain ⟨a, t, rfl⟩ := List.exists_cons_of_ne_nil hne
    have ha : ¬ (a = '0') := by
      intro haz
      exact h0 (hzero (by rw [haz]; rfl))
    rw [List.dropWhile_cons_of_neg (by simpa using ha)]
    simp

/-- Witness for C4: the input `"007"` normalizes to the trimmed canonical
`"7"`, and normalizing `"7"` again returns `"7"`. -/
theorem normalize_idempotent_witness :
    normalizeInvoiceId (JsId.str (chars "7")) = some (chars "7") :=
  normalize_idempotent_on_trimmed_canonical (JsId.str (chars "007")) (chars "7")
    (by decide) (by decide)

/-- Claim C2, counterexample: the whitespace-only identifier `"   "` does
not fail normalization — the guard compares the raw value against the
empty string before trimming, so `"   "` trims to `""` and
`'' || '0'` yields the canonical `"0"`. -/
theorem whitespace_only_id_normalizes_to_zero :
    normalizeInvoiceId (JsId.str (chars "   ")) = some (chars "0") := by decide

/-- Claim C2 (corrected): `normalizeInvoiceId` fails exactly on `null`,
`undefined` and the literal empty string `""` (checked before trimming);
every other modelled input — including whitespace-only strings — succeeds
with a canonical string. -/
theorem normalize_fails_iff_null_undefined_or_empty (raw : JsId) :
    normalizeInvoiceId raw = none ↔
      (raw = JsId.null ∨ raw = JsId.undef ∨ raw = JsId.str []) := by
  cases raw with
  | null => simp [normalizeInvoiceId]
  | undef => simp [normalizeInvoiceId]
  | num n =>
      simp only [normalizeInvoiceId]
      constructor
      · intro hcontra
        by_cases h0 : jsTrim (chars (Nat.repr n)) = chars "0"
        · rw [if_pos h0] at hcontra; cases hcontra
        · rw [if_neg h0] at hcontra; cases hcontra
      · rintro (h | h | h) <;> simp at h
  | str s =>
      by_cases hnil : s = []
      · subst hnil; simp [normalizeInvoiceId]
      · simp only [normalizeInvoiceId, if_neg hnil]
        constructor
        · intro hcontra
          by_cases h0 : jsTrim s = chars "0"
          · rw [if_pos h0] at hcontra; cases hcontra
          · rw [if_neg h0] at hcontra; cases hcontra
        · intro hor
          rcases hor with h | h | h
          · cases h
          · cases h
          · cases h; exact absurd rfl hnil

/-- Claim C3 (confirmed): on every non-empty string the normalizer
coerces, trims and strips leading zeros, restoring a single `"0"` when
nothing remains; in particular `"0"`, `"00"`, `"000"` and the number `0`
normalize to `"0"`, and `"007"` normalizes to `"7"`. -/
theorem normalize_strips_leading_zeros :
    (∀ s : List Char, s ≠ [] →
      normalizeInvoiceId (JsId.str s) =
        some (if (jsTrim s).dropWhile (fun c => c = '0') = [] then chars "0"
              else (jsTrim s).dropWhile (fun c => c = '0'))) ∧
    normalizeInvoiceId (JsId.str (chars "0")) = some (chars "0") ∧
    normalizeInvoiceId (JsId.str (chars "00")) = some (chars "0") ∧
    normalizeInvoiceId (JsId.str (chars "000")) = some (chars "0") ∧
    normalizeInvoiceId (JsId.num 0) = some (chars "0") ∧
    normalizeInvoiceId (JsId.str (chars "007")) = some (chars "7") := by
  refine ⟨?_, by decide, by decide, by decide, by decide, by decide⟩
  intro s hnil
  simp only [normalizeInvoiceId, if_neg hnil]
  by_cases h0 : jsTrim s = chars "0"
  · rw [if_pos h0, h0]
    decide
  · rw [if_neg h0]

/-- Witness for C3 at the non-empty input `"007"`. -/
theorem normalize_strips_leading_zeros_witness :
    normalizeInvoiceId (JsId.str (chars "007")) = some (chars "7") := by
  have h := normalize_strips_leading_zeros.1 (chars "007") (by decide)
  simpa using h

/-- Claim C1 (corrected, normalizing engine): the api/index.js
`verifyInvoiceLogic` factors through `normalizeInvoiceId`, so two raw
identifiers with the same canonical id always receive the same verdict
(that engine accepts no claimed amount, so the verdict is the whole
result). -/
theorem verify_congruent_under_normalization (r1 r2 : JsId)
    (h : normalizeInvoiceId r1 = normalizeInvoiceId r2) :
    verifyInvoiceLogicApi r1 = verifyInvoiceLogicApi r2 := by
  unfold verifyInvoiceLogicApi
  rw [h]

/-- Witness for C1: `"007"` and `"7"` share the canonical id `"7"`. -/
theorem verify_congruent_under_normalization_witness :
    verifyInvoiceLogicApi (JsId.str (chars "007")) = verifyInvoiceLogicApi (JsId.str (chars "7")) :=
  verify_congruent_under_normalization (JsId.str (chars "007")) (JsId.str (chars "7")) (by decide)

/-- Claim C1, counterexample: the server.js engine performs no
normalization (`invoiceId.toString()` is looked up directly), so
`"01001"` and `"1001"` — which normalize to the same canonical `"1001"` —
receive different verdicts at the same claimed amount `1250.50`. -/
theorem server_verify_not_normalization_invariant :
    normalizeInvoiceId (JsId.str (chars "01001")) = normalizeInvoiceId (JsId.str (chars "1001")) ∧
    verifyInvoiceLogicServer1 (JsId.str (chars "01001")) (JsAmt.num (some 1250.50)) = false ∧
    verifyInvoiceLogicServer1 (JsId.str (chars "1001")) (JsAmt.num (some 1250.50)) = true := by
  refine ⟨by decide, by decide, ?_⟩
  norm_num [verifyInvoiceLogicServer1, verifyServer1Body, jsToStringId, mockInvoicesServer1,
    providedAmountOf, jsAbs, jsSub, jsGt, chars]

/-- Evaluation of the first server.js engine on a non-pending record:
the status gate rejects before any amount handling. -/
lemma verify1_eval_nonpending (k : List Char) (r : InvoiceRecord) (amount : JsAmt)
    (hr : mockInvoicesServer1 k = some r) (hp : r.status ≠ chars "pending") :
    verifyInvoiceLogicServer1 (JsId.str k) amount = false := by
  simp [verifyInvoiceLogicServer1, verifyServer1Body, jsToStringId, hr, hp]

/-- Claim C5 (confirmed): in the tolerance-enforcing engine variant
(first server.js `verifyInvoiceLogic`), a claimed amount within `0.001`
of the record amount — the boundary included — is accepted on a pending
record, and any difference exceeding `0.001` (such as `0.0011`) is
rejected. -/
theorem verify_amount_tolerance_boundary (k : List Char) (r : InvoiceRecord) (amt : ℚ)
    (hr : mockInvoicesServer1 k = some r) :
    (r.status = chars "pending" → |r.amount - amt| ≤ 1/1000 →
        verifyInvoiceLogicServer1 (JsId.str k) (JsAmt.num (some amt)) = true) ∧
    (|r.amount - amt| > 1/1000 →
        verifyInvoiceLogicServer1 (JsId.str k) (JsAmt.num (some amt)) = false) := by
  constructor
  · intro hp hle
    have hno : ¬ ((1:ℚ)/1000 < |r.amount - amt|) := not_lt.mpr hle
    rw [one_div] at hno
    simp [verifyInvoiceLogicServer1, verifyServer1Body, jsToStringId, hr,
      providedAmountOf, jsSub, jsAbs, jsGt, hp, decide_eq_true_eq]
    rw [if_neg hno]
  · intro hgt
    by_cases hp : r.status = chars "pending"
    · have hlt : ((1000:ℚ))⁻¹ < |r.amount - amt| := by
        rw [← one_div]; exact hgt
      simp [verifyInvoiceLogicServer1, verifyServer1Body, jsToStringId, hr,
        providedAmountOf, jsSub, jsAbs, jsGt, hp, decide_eq_true_eq]
      rw [if_pos hlt]
    · exact verify1_eval_nonpending k r _ hr hp

/-- Witness for C5 at record `"12345"` (amount `5000.00`), with claimed
amounts exactly `0.001` and `0.0011` away. -/
theorem verify_amount_tolerance_boundary_witness :
    verifyInvoiceLogicServer1 (JsId.str (chars "12345"))
        (JsAmt.num (some (5000 + 1/1000))) = true ∧
    verifyInvoiceLogicServer1 (JsId.str (chars "12345"))
        (JsAmt.num (some (5000 + 11/10000))) = false := by
  constructor
  · exact (verify_amount_tolerance_boundary (chars "12345")
      ⟨5000.00, chars "pending", "Test Supplier"⟩ (5000 + 1/1000) rfl).1 rfl
      (by norm_num [abs_le])
  · exact (verify_amount_tolerance_boundary (chars "12345")
      ⟨5000.00, chars "pending", "Test Supplier"⟩ (5000 + 11/10000) rfl).2
      (by norm_num [lt_abs])

/-- Evaluation of the second server.js engine on a non-pending record. -/
lemma verify2_eval_nonpending (k : List Char) (r : InvoiceRecord) (amount : JsAmt)
    (hr : mockInvoicesServer2 k = some r) (hp : r.status ≠ chars "pending") :
    verifyInvoiceLogicServer2 (JsId.str k) amount = false := by
  simp [verifyInvoiceLogicServer2, verifyServer2Body, jsToStringId, hr, hp]

/-- Claim C6 (confirmed): in the status-gating engine (second server.js
`verifyInvoiceLogic`), every record whose status is `paid`, `rejected`,
`cancelled` or `disputed` is rejected for any claimed amount, matching or
not. -/
theorem verify_status_gating_rejects_non_pending (k : List Char) (r : InvoiceRecord)
    (amt : JsAmt) (hr : mockInvoicesServer2 k = some r)
    (hs : r.status = chars "paid" ∨ r.status = chars "rejected" ∨
          r.status = chars "cancelled" ∨ r.status = chars "disputed") :
    verifyInvoiceLogicServer2 (JsId.str k) amt = false := by
  have hp : r.status ≠ chars "pending" := by
    rcases hs with h | h | h | h <;> rw [h] <;> decide
  exact verify2_eval_nonpending k r amt hr hp

/-- Witness for C6 at the paid record `"2001"`, with the claimed amount
equal to the record amount `3200.00`. -/
theorem verify_status_gating_witness :
    verifyInvoiceLogicServer2 (JsId.str (chars "2001")) (JsAmt.num (some 3200.00)) = false :=
  verify_status_gating_rejects_non_pending (chars "2001")
    ⟨3200.00, chars "paid", "Paid Supplier A"⟩ (JsAmt.num (some 3200.00)) rfl (Or.inl rfl)

/-- Claim C7 (confirmed): the engine variant taking no claimed amount
(api/index.js `verifyInvoiceLogic`) performs no amount check at all —
every identifier whose canonical form has a (pending) record in the store
verifies as valid. -/
theorem verify_no_amount_skips_amount_check (raw : JsId) (c : List Char)
    (r : ApiInvoiceRecord) (hn : normalizeInvoiceId raw = some c)
    (hl : apiMockInvoices c = some r) (_hp : r.status = chars "pending") :
    verifyInvoiceLogicApi raw = true := by
  simp [verifyInvoiceLogicApi, hn, hl]

/-- Witness for C7: `"0"` normalizes to `"0"`, whose record (the pending
`Zero Invoice`) exists, so the no-amount verification succeeds. -/
theorem verify_no_amount_skips_amount_check_witness :
    verifyInvoiceLogicApi (JsId.str (chars "0")) = true :=
  verify_no_amount_skips_amount_check (JsId.str (chars "0")) (chars "0")
    ⟨"Zero Invoice", chars "pending"⟩ (by decide) rfl rfl

/-- Claim C8 (confirmed): the verification engines are total Boolean
functions, and every failure path resolves to the `false` verdict: a
thrown error inside the body is caught and becomes `false`, and an
identifier with no record in the store — in either engine — yields
`false` with no fault escaping. -/
theorem verify_never_faults_and_failures_resolve_false (raw : JsId) (amt : JsAmt) :
    (∀ e, verifyServer1Body raw amt = Except.error e →
        verifyInvoiceLogicServer1 raw amt = false) ∧
    (∀ k, jsToStringId raw = Except.ok k → mockInvoicesServer1 k = none →
        verifyInvoiceLogicServer1 raw amt = false) ∧
    (∀ c, normalizeInvoiceId raw = some c → apiMockInvoices c = none →
        verifyInvoiceLogicApi raw = false) := by
  refine ⟨?_, ?_, ?_⟩
  · intro e he
    simp [verifyInvoiceLogicServer1, he]
  · intro k hk hnone
    simp [verifyInvoiceLogicServer1, verifyServer1Body, hk, hnone]
  · intro c hc hnone
    simp [verifyInvoiceLogicApi, hc, hnone]

/-- Witness for C8: the `null` identifier (whose `toString()` throws and
is caught), an unknown identifier, and an unknown canonical id on the
normalizing engine, all resolve to `false`. -/
theorem verify_never_faults_witness :
    verifyInvoiceLogicServer1 JsId.null JsAmt.undef = false ∧
    verifyInvoiceLogicServer1 (JsId.str (chars "31337")) JsAmt.undef = false ∧
    verifyInvoiceLogicApi (JsId.str (chars "007")) = false := by
  refine ⟨?_, ?_, ?_⟩
  · exact (verify_never_faults_and_failures_resolve_false JsId.null JsAmt.undef).1 "TypeError" rfl
  · exact (verify_never_faults_and_failures_resolve_false
      (JsId.str (chars "31337")) JsAmt.undef).2.1 (chars "31337") rfl rfl
  · exact (verify_never_faults_and_failures_resolve_false
      (JsId.str (chars "007")) JsAmt.undef).2.2 (chars "7") (by decide) rfl

/-- Claim C9 (confirmed): the bulk loop returns one result per input item
in input order, each item's result is exactly the result of verifying
that item alone (`verifySingle`, so no item affects another), and the
reported `validCount` counts the results with a `true` verdict. -/
theorem bulk_preserves_order_independence_and_count (items : List BulkItem) :
    (bulkResults items).length = items.length ∧
    bulkResults items = items.map verifySingle ∧
    bulkValidCount items = (bulkResults items).countP (fun r => r.isValid) := by
  have hmap : bulkResults items = items.map verifySingle := by
    induction items with
    | nil => rfl
    | cons it rest ih => simp [bulkResults, verifySingle, ih]
  refine ⟨by rw [hmap, List.length_map], hmap, ?_⟩
  simp [bulkValidCount, List.countP_eq_length_filter]
